import Mathlib

/-!
Shallow embedding of the IQS5XX-B000 trackpad driver
(`src/IQS5XX_B000_Trackpad.h`, `src/IQS5XX_B000_Trackpad.cpp`).

The I2C transport (Arduino `TwoWire`) is an external collaborator.  We model
it as an oracle (`Bus`) that fixes, for each `endTransmission` call (counted
in call order) its returned status, and for each `requestFrom` call the byte
count it reports and the bytes it buffers.  The driver's interaction with the
bus is recorded in an event log (`BusEvent`), so that theorems can speak
about which transactions were opened, with which payload, and in which order.
Bytes coming off the wire are reduced `% 256` (they are `uint8_t` in C).
Machine integers are modelled as `Nat` with explicit truncation where the C
types truncate.
-/

namespace IQS5XX

/-- `enum TouchState` from the header. -/
inductive TouchState where
  | NO_TOUCH
  | SINGLE_TOUCH
  | MULTI_TOUCH
deriving DecidableEq, Repr

/-- `struct TouchData`.  The header declares `x, y, touchStrength, area,
state`; the implementation of `readTouchData` additionally assigns the nine
gesture flags and `numFingers`, so the record carries the union of both. -/
structure TouchData where
  x : Nat
  y : Nat
  touchStrength : Nat
  area : Nat
  state : TouchState
  swipeY_minus : Bool := false
  swipeY_plus : Bool := false
  swipeX_plus : Bool := false
  swipeX_minus : Bool := false
  pressAndHold : Bool := false
  singleTap : Bool := false
  zoom : Bool := false
  scroll : Bool := false
  twoFingerTap : Bool := false
  numFingers : Nat := 0
deriving DecidableEq, Repr

/- Register address constants from the header. -/
def IQS5XX_DEFAULT_ADDRESS : Nat := 0x74
def IQS5XX_REG_PRODUCT_NUMBER : Nat := 0x00
def IQS5XX_REG_VERSION_INFO : Nat := 0x01
def IQS5XX_REG_SYS_FLAGS : Nat := 0x10
def IQS5XX_REG_TOUCH_X : Nat := 0x16
def IQS5XX_REG_TOUCH_Y : Nat := 0x18
def IQS5XX_REG_TOUCH_STRENGTH : Nat := 0x1A
def IQS5XX_REG_AREA : Nat := 0x1B
def IQS5XX_REG_ACTIVE_REPORT_RATE : Nat := 0x057A
def IQS5XX_REG_I2C_TIMEOUT : Nat := 0x058A
def IQS5XX_REG_SYS_CFG0 : Nat := 0x058E
def IQS5XX_SYS_FLAG_RESET : Nat := 0x80

/-- Modelled from the spec: the two gesture-event registers are not defined
in the header (the .cpp refers to `IQS5XX_SYS_GESTURE_EVENTS_0/1` without a
definition in src); the spec's register map says only "device-specific,
adjacent".  We fix the pair as adjacent addresses; no claim depends on the
numeric values. -/
def IQS5XX_SYS_GESTURE_EVENTS_0 : Nat := 0x000D

/-- Modelled from the spec: adjacent to `IQS5XX_SYS_GESTURE_EVENTS_0`. -/
def IQS5XX_SYS_GESTURE_EVENTS_1 : Nat := 0x000E

/-- Modelled from the spec: the finger-count register is not defined in the
header (the .cpp refers to `IQS5XX_REG_NUM_FINGERS` without a definition in
src); the spec register map says "device-specific".  No claim depends on the
numeric value. -/
def IQS5XX_REG_NUM_FINGERS : Nat := 0x11

/-- One observable interaction with the outside world, in order of
occurrence.  `txn a d` is a complete write transaction
(`beginTransmission(a)`, `write` of each byte of `d`, `endTransmission`);
`req a n` is `requestFrom(a, n)`; the delay events record the scheduler
calls interleaved with bus traffic. -/
inductive BusEvent where
  | txn (addr : Nat) (data : List Nat)
  | req (addr : Nat) (count : Nat)
  | delayUs (n : Nat)
  | delayMs (n : Nat)
deriving DecidableEq, Repr

/-- The transport oracle: outcome of the i-th `endTransmission` call, and
count/bytes delivered by the j-th `requestFrom` call. -/
structure Bus where
  endStatus : Nat → Nat
  reqCount : Nat → Nat
  reqBytes : Nat → List Nat

/-- Dynamic interaction state: how many `endTransmission` / `requestFrom`
calls have happened, and the event log so far. -/
structure BusState where
  endIdx : Nat
  reqIdx : Nat
  log : List BusEvent

def BusState.empty : BusState := ⟨0, 0, []⟩

/-- `beginTransmission(addr)`, the `write`s of `data`, and
`endTransmission()`: returns the oracle's status for this (the `endIdx`-th)
transaction and logs it. -/
def doTxn (bus : Bus) (s : BusState) (addr : Nat) (data : List Nat) :
    Nat × BusState :=
  (bus.endStatus s.endIdx,
   { s with endIdx := s.endIdx + 1, log := s.log ++ [BusEvent.txn addr data] })

/-- `requestFrom(addr, n)`: returns the oracle's byte count and the buffered
bytes (each a `uint8_t`, hence `% 256`) for this (the `reqIdx`-th) request,
and logs it.  Subsequent `read()` calls pop the buffered bytes in order. -/
def doReq (bus : Bus) (s : BusState) (addr : Nat) (n : Nat) :
    (Nat × List Nat) × BusState :=
  ((bus.reqCount s.reqIdx, (bus.reqBytes s.reqIdx).map (· % 256)),
   { s with reqIdx := s.reqIdx + 1, log := s.log ++ [BusEvent.req addr n] })

/-- Driver instance state: `_readyPin`, `_address`, whether `_wire` is bound
(`_wire == nullptr` at construction, set by `begin`), `_lastTouchData`. -/
structure Trackpad where
  readyPin : Nat
  address : Nat
  wireBound : Bool
  lastTouchData : TouchData
deriving DecidableEq, Repr

/-- The constructor `IQS5XX_B000_Trackpad(readyPin, address)`:
`_wire = nullptr`, `_lastTouchData = {0, 0, 0, 0, NO_TOUCH}` (the remaining
aggregate members are value-initialized to zero/false). -/
def Trackpad.construct (readyPin address : Nat) : Trackpad :=
  { readyPin := readyPin
    address := address
    wireBound := false
    lastTouchData := { x := 0, y := 0, touchStrength := 0, area := 0,
                       state := TouchState.NO_TOUCH } }

/-- `readRegister8(uint8_t reg)`. -/
def readRegister8 (bus : Bus) (t : Trackpad) (s : BusState) (reg : Nat) :
    Nat × BusState :=
  if t.wireBound = false then (0, s)
  else
    let (e, s1) := doTxn bus s t.address [reg % 256]
    if e ≠ 0 then (0, s1)
    else
      let (r, s2) := doReq bus s1 t.address 1
      if r.1 ≠ 1 then (0, s2)
      else (r.2.getD 0 0, s2)

/-- `readRegister8_16bit(uint16_t reg)`. -/
def readRegister8_16bit (bus : Bus) (t : Trackpad) (s : BusState)
    (reg : Nat) : Nat × BusState :=
  if t.wireBound = false then (0, s)
  else
    let (e, s1) := doTxn bus s t.address [(reg >>> 8) &&& 0xFF, reg &&& 0xFF]
    if e ≠ 0 then (0, s1)
    else
      let (r, s2) := doReq bus s1 t.address 1
      if r.1 ≠ 1 then (0, s2)
      else (r.2.getD 0 0, s2)

/-- `readRegister16_16bit(uint16_t reg)`: two bytes, first byte is the high
byte (`(high << 8) | low`). -/
def readRegister16_16bit (bus : Bus) (t : Trackpad) (s : BusState)
    (reg : Nat) : Nat × BusState :=
  if t.wireBound = false then (0, s)
  else
    let (e, s1) := doTxn bus s t.address [(reg >>> 8) &&& 0xFF, reg &&& 0xFF]
    if e ≠ 0 then (0, s1)
    else
      let (r, s2) := doReq bus s1 t.address 2
      if r.1 ≠ 2 then (0, s2)
      else ((r.2.getD 0 0 <<< 8) ||| r.2.getD 1 0, s2)

/-- `readBytes(uint8_t reg, uint8_t* buffer, uint8_t length)`.  The filled
buffer is returned as `some bytes` on success, `none` on failure (the C
`buffer == nullptr` guard has no counterpart here: the model always has a
buffer). -/
def readBytes (bus : Bus) (t : Trackpad) (s : BusState)
    (reg length : Nat) : Option (List Nat) × BusState :=
  if t.wireBound = false ∨ length = 0 then (none, s)
  else
    let (e, s1) := doTxn bus s t.address [reg % 256]
    if e ≠ 0 then (none, s1)
    else
      let (r, s2) := doReq bus s1 t.address length
      if r.1 ≠ length then (none, s2)
      else (some ((List.range length).map (fun i => r.2.getD i 0)), s2)

/-- `readRegister16(uint8_t reg)`: legacy 8-bit-addressed path, two bytes
assembled `(buffer[1] << 8) | buffer[0]` (first byte is the low byte). -/
def readRegister16 (bus : Bus) (t : Trackpad) (s : BusState) (reg : Nat) :
    Nat × BusState :=
  match readBytes bus t s reg 2 with
  | (none, s1) => (0, s1)
  | (some buffer, s1) => ((buffer.getD 1 0 <<< 8) ||| buffer.getD 0 0, s1)

/-- `writeRegister8(uint8_t reg, uint8_t value)`. -/
def writeRegister8 (bus : Bus) (t : Trackpad) (s : BusState)
    (reg value : Nat) : Bool × BusState :=
  if t.wireBound = false then (false, s)
  else
    let (e, s1) := doTxn bus s t.address [reg % 256, value % 256]
    (e = 0, s1)

/-- `writeRegister8_16bit(uint16_t reg, uint8_t value)`. -/
def writeRegister8_16bit (bus : Bus) (t : Trackpad) (s : BusState)
    (reg value : Nat) : Bool × BusState :=
  if t.wireBound = false then (false, s)
  else
    let (e, s1) := doTxn bus s t.address
      [(reg >>> 8) &&& 0xFF, reg &&& 0xFF, value % 256]
    (e = 0, s1)

/-- `writeRegister16(uint16_t reg, uint16_t value)`: address big-endian then
value big-endian. -/
def writeRegister16 (bus : Bus) (t : Trackpad) (s : BusState)
    (reg value : Nat) : Bool × BusState :=
  if t.wireBound = false then (false, s)
  else
    let (e, s1) := doTxn bus s t.address
      [(reg >>> 8) &&& 0xFF, reg &&& 0xFF, (value >>> 8) &&& 0xFF,
       value &&& 0xFF]
    (e = 0, s1)

/-- `isConnected()`: zero-length probe transaction. -/
def isConnected (bus : Bus) (t : Trackpad) (s : BusState) :
    Bool × BusState :=
  if t.wireBound = false then (false, s)
  else
    let (e, s1) := doTxn bus s t.address []
    (e = 0, s1)

/-- `getProductNumber()`: 16-bit-addressed 2-byte read of register 0x00,
assembled `(productHigh << 8) | productLow`. -/
def getProductNumber (bus : Bus) (t : Trackpad) (s : BusState) :
    Nat × BusState :=
  if t.wireBound = false then (0, s)
  else
    let (e, s1) := doTxn bus s t.address
      [(IQS5XX_REG_PRODUCT_NUMBER >>> 8) &&& 0xFF,
       IQS5XX_REG_PRODUCT_NUMBER &&& 0xFF]
    if e ≠ 0 then (0, s1)
    else
      let (r, s2) := doReq bus s1 t.address 2
      if r.1 ≠ 2 then (0, s2)
      else ((r.2.getD 0 0 <<< 8) ||| r.2.getD 1 0, s2)

/-- `wakeupDevice()`: first zero-length transaction (result `result1`
ignored), `delayMicroseconds(200)`, second zero-length transaction; success
iff the second reports 0. -/
def wakeupDevice (bus : Bus) (t : Trackpad) (s : BusState) :
    Bool × BusState :=
  if t.wireBound = false then (false, s)
  else
    let (_, s1) := doTxn bus s t.address []
    let s2 := { s1 with log := s1.log ++ [BusEvent.delayUs 200] }
    let (result2, s3) := doTxn bus s2 t.address []
    (result2 = 0, s3)

/-- `enableManualControl()`: read System Configuration 0 (0x058E), set bit 7,
write it back.  The read's zero-failure sentinel is not inspected: a failed
read yields `sysConf0 = 0` and the write of `0x80` proceeds. -/
def enableManualControl (bus : Bus) (t : Trackpad) (s : BusState) :
    Bool × BusState :=
  if t.wireBound = false then (false, s)
  else
    let (sysConf0, s1) := readRegister8_16bit bus t s IQS5XX_REG_SYS_CFG0
    let sysConf0m := sysConf0 ||| 0b10000000
    writeRegister8_16bit bus t s1 IQS5XX_REG_SYS_CFG0 sysConf0m

/-- The identity-verification and configuration tail of `begin` (source
lines 47-68), run once the presence probe — or, after an ack-no-data probe,
the wake sequence — has succeeded: read the product number (zero is a
failure), check its low byte against the three recognized product IDs,
enable manual control, settle `delay(1)`. -/
def beginTail (bus : Bus) (t : Trackpad) (s : BusState) :
    Bool × Trackpad × BusState :=
  let (productNumber, s4) := getProductNumber bus t s
  if productNumber = 0 then (false, t, s4)
  else
    let productID := productNumber &&& 0xFF
    if productID ≠ 40 ∧ productID ≠ 58 ∧ productID ≠ 52 then
      (false, t, s4)
    else
      let (ok, s5) := enableManualControl bus t s4
      if ok = false then (false, t, s5)
      else (true, t, { s5 with log := s5.log ++ [BusEvent.delayMs 1] })

/-- `begin(TwoWire&)`: bind the transport, settle `delay(1)`, presence
probe, optional wakeup, then the `beginTail` sequence (identity
verification, manual-control enable, settle delay).  Returns the updated
driver state alongside the C `bool`. -/
def begin (bus : Bus) (t : Trackpad) (s : BusState) :
    Bool × Trackpad × BusState :=
  let t1 := { t with wireBound := true }
  let s1 := { s with log := s.log ++ [BusEvent.delayMs 1] }
  let (error, s2) := doTxn bus s1 t1.address []
  let afterProbe : Except BusState BusState :=
    if error = 0 then Except.ok s2
    else if error = 2 then
      match wakeupDevice bus t1 s2 with
      | (false, sF) => Except.error sF
      | (true, s3) => Except.ok s3
    else Except.error s2
  match afterProbe with
  | Except.error sF => (false, t1, sF)
  | Except.ok s3 => beginTail bus t1 s3

/-- `getVersionInfo()`. -/
def getVersionInfo (bus : Bus) (t : Trackpad) (s : BusState) :
    Nat × BusState :=
  readRegister16 bus t s IQS5XX_REG_VERSION_INFO

/-- `getSystemFlags()`. -/
def getSystemFlags (bus : Bus) (t : Trackpad) (s : BusState) :
    Nat × BusState :=
  readRegister8 bus t s IQS5XX_REG_SYS_FLAGS

/-- `needsReset()`. -/
def needsReset (bus : Bus) (t : Trackpad) (s : BusState) :
    Bool × BusState :=
  let (flags, s1) := getSystemFlags bus t s
  ((flags &&& IQS5XX_SYS_FLAG_RESET) ≠ 0, s1)

/-- `softReset()`. -/
def softReset (bus : Bus) (t : Trackpad) (s : BusState) :
    Bool × BusState :=
  writeRegister8 bus t s IQS5XX_REG_SYS_FLAGS IQS5XX_SYS_FLAG_RESET

/-- `isReadyForData()`: `digitalRead(_readyPin) == LOW`.  The ready line is
an external digital input, supplied here as the current level
(`true` = HIGH). -/
def isReadyForData (readyHigh : Bool) : Bool :=
  readyHigh = false

/-- `readTouchData(TouchData&)`.

The leading `while (digitalRead(_readyPin) == HIGH) delayMicroseconds(10);`
busy-wait is unbounded in C; we model the terminating executions by the
number `readyAfter` of polls that saw the line HIGH before it went LOW (each
such poll logs its 10 microsecond delay).  `touchData` is the caller's
struct, passed by reference and possibly uninitialized; on the early-return
paths only the fields assigned so far change.  Returns
`(C result, caller's struct, driver state, bus state)`. -/
def readTouchData (bus : Bus) (readyAfter : Nat) (t : Trackpad)
    (s : BusState) (touchData : TouchData) :
    Bool × TouchData × Trackpad × BusState :=
  let s0 := { s with
    log := s.log ++ List.replicate readyAfter (BusEvent.delayUs 10) }
  let (x, s1) := readRegister16_16bit bus t s0 IQS5XX_REG_TOUCH_X
  let td1 := { touchData with x := x }
  if x = 0 then
    (false, { td1 with state := TouchState.NO_TOUCH }, t, s1)
  else
    let (y, s2) := readRegister16_16bit bus t s1 IQS5XX_REG_TOUCH_Y
    let td2 := { td1 with y := y }
    if y = 0 then
      (false, { td2 with state := TouchState.NO_TOUCH }, t, s2)
    else
      let (gesture0, s3) :=
        readRegister8_16bit bus t s2 IQS5XX_SYS_GESTURE_EVENTS_0
      let (gesture1, s4) :=
        readRegister8_16bit bus t s3 IQS5XX_SYS_GESTURE_EVENTS_1
      let td3 := { td2 with
        swipeY_minus := (gesture0 &&& 0b00100000) ≠ 0
        swipeY_plus := (gesture0 &&& 0b00010000) ≠ 0
        swipeX_plus := (gesture0 &&& 0b00001000) ≠ 0
        swipeX_minus := (gesture0 &&& 0b00000100) ≠ 0
        pressAndHold := (gesture0 &&& 0b00000010) ≠ 0
        singleTap := (gesture0 &&& 0b00000001) ≠ 0
        zoom := (gesture1 &&& 0b00000100) ≠ 0
        scroll := (gesture1 &&& 0b00000010) ≠ 0
        twoFingerTap := (gesture1 &&& 0b00000001) ≠ 0 }
      let (touchStrength, s5) :=
        readRegister8_16bit bus t s4 IQS5XX_REG_TOUCH_STRENGTH
      let td4 := { td3 with touchStrength := touchStrength }
      let (area, s6) := readRegister8_16bit bus t s5 IQS5XX_REG_AREA
      let td5 := { td4 with area := area }
      let td6 := { td5 with state :=
        if touchStrength = 0 then TouchState.NO_TOUCH
        else if x = 0 ∧ y = 0 then TouchState.NO_TOUCH
        else TouchState.SINGLE_TOUCH }
      let (numFingers, s7) :=
        readRegister8_16bit bus t s6 IQS5XX_REG_NUM_FINGERS
      let td7 := { td6 with numFingers := numFingers }
      (true, td7, { t with lastTouchData := td7 }, s7)

/-- `getTouchState()`. -/
def getTouchState (bus : Bus) (readyAfter : Nat) (t : Trackpad)
    (s : BusState) : TouchState × Trackpad × BusState :=
  match readTouchData bus readyAfter t s
      { x := 0, y := 0, touchStrength := 0, area := 0,
        state := TouchState.NO_TOUCH } with
  | (true, touchData, t1, s1) => (touchData.state, t1, s1)
  | (false, _, t1, s1) => (TouchState.NO_TOUCH, t1, s1)

/-- `getTouchX()`. -/
def getTouchX (bus : Bus) (readyAfter : Nat) (t : Trackpad)
    (s : BusState) : Nat × Trackpad × BusState :=
  match readTouchData bus readyAfter t s
      { x := 0, y := 0, touchStrength := 0, area := 0,
        state := TouchState.NO_TOUCH } with
  | (true, touchData, t1, s1) =>
    if touchData.state ≠ TouchState.NO_TOUCH then (touchData.x, t1, s1)
    else (0, t1, s1)
  | (false, _, t1, s1) => (0, t1, s1)

/-- `getTouchY()`. -/
def getTouchY (bus : Bus) (readyAfter : Nat) (t : Trackpad)
    (s : BusState) : Nat × Trackpad × BusState :=
  match readTouchData bus readyAfter t s
      { x := 0, y := 0, touchStrength := 0, area := 0,
        state := TouchState.NO_TOUCH } with
  | (true, touchData, t1, s1) =>
    if touchData.state ≠ TouchState.NO_TOUCH then (touchData.y, t1, s1)
    else (0, t1, s1)
  | (false, _, t1, s1) => (0, t1, s1)

/-- `increaseSpeed()`: write 5 to the I2C-timeout register (1 byte), then 5
to the active-report-rate register (2 bytes).  The source spells these calls
`trackpad.writeRegister…` (an identifier with no definition in this
translation unit); the evident referent is the driver instance itself, and
the calls are modelled as self-calls. -/
def increaseSpeed (bus : Bus) (t : Trackpad) (s : BusState) :
    Bool × BusState :=
  match writeRegister8_16bit bus t s IQS5XX_REG_I2C_TIMEOUT 5 with
  | (false, s1) => (false, s1)
  | (true, s1) =>
    match writeRegister16 bus t s1 IQS5XX_REG_ACTIVE_REPORT_RATE 5 with
    | (false, s2) => (false, s2)
    | (true, s2) => (true, s2)

/-! ## Concrete fixtures used by witnesses and counterexamples -/

/-- An always-cooperative transport that returns status 0 everywhere, zero
byte counts and no data. -/
def busZero : Bus :=
  { endStatus := fun _ => 0, reqCount := fun _ => 0, reqBytes := fun _ => [] }

/-- A freshly constructed driver (ready pin 1, default address). -/
def pad0 : Trackpad := Trackpad.construct 1 0x74

/-- The same driver with the transport bound, as `begin` leaves it. -/
def padB : Trackpad := { pad0 with wireBound := true }

/-- Transport fixture: a 2-byte request is answered with count 1 and a
single byte, the spec's example of a failed byte-count match. -/
def busShort : Bus :=
  { endStatus := fun _ => 0, reqCount := fun _ => 1,
    reqBytes := fun _ => [7] }

/-- Transport fixture: delivers the byte pair `[0xAB, 0xCD]`. -/
def busPair : Bus :=
  { endStatus := fun _ => 0, reqCount := fun _ => 2,
    reqBytes := fun _ => [0xAB, 0xCD] }

/-- The all-zero frame the constructor installs. -/
def tdZero : TouchData :=
  { x := 0, y := 0, touchStrength := 0, area := 0,
    state := TouchState.NO_TOUCH }

/-- Transport fixture for a fully successful acquisition: X reads 1, Y reads
2, every 1-byte register reads 3. -/
def busTouch : Bus :=
  { endStatus := fun _ => 0
    reqCount := fun j => if j < 2 then 2 else 1
    reqBytes := fun j =>
      if j = 0 then [0, 1] else if j = 1 then [0, 2] else [3] }

/-- Transport fixture for a fully successful `begin`: every transaction
succeeds and the product number reads back as 58 (a recognized ID). -/
def busBeginOk : Bus :=
  { endStatus := fun _ => 0
    reqCount := fun j => if j = 0 then 2 else 1
    reqBytes := fun j => if j = 0 then [0, 58] else [0] }

/-- Transport fixture in which every transaction succeeds except the third
(index 2) — which, in a `begin` run, is exactly the manual-control read of
System Configuration 0 — while the product number reads back as 40
(a recognized ID). -/
def busReadFail : Bus :=
  { endStatus := fun i => if i = 2 then 1 else 0
    reqCount := fun j => if j = 0 then 2 else 1
    reqBytes := fun j => if j = 0 then [0, 40] else [0] }

/-! ## Arithmetic helpers: byte assembly -/

/-- Disjoint shift-or is addition: the C idiom `(h << k) | l` for `l` below
`2^k`. -/
lemma shiftLeft_lor_eq_add (k : Nat) :
    ∀ h l : Nat, l < 2 ^ k → (h <<< k) ||| l = 2 ^ k * h + l := by
  induction k with
  | zero =>
    intro h l hl
    have : l = 0 := by omega
    subst this
    simp [Nat.shiftLeft_eq]
  | succ k ih =>
    intro h l hl
    have hdiv : ((h <<< (k + 1)) ||| l) / 2 = (h <<< k) ||| (l / 2) := by
      rw [Nat.or_div_two]
      congr 1
      rw [Nat.shiftLeft_eq, Nat.shiftLeft_eq, pow_succ]
      rw [← Nat.mul_assoc]
      exact Nat.mul_div_cancel _ (by omega)
    have hdiv2 : (h <<< k) ||| (l / 2) = 2 ^ k * h + l / 2 :=
      ih h (l / 2) (by rw [pow_succ] at hl; omega)
    have hmod : ((h <<< (k + 1)) ||| l) % 2 = l % 2 := by
      rcases Nat.mod_two_eq_zero_or_one l with h0 | h1
      · rw [h0]
        by_contra hne
        have : ((h <<< (k + 1)) ||| l) % 2 = 1 := by omega
        rw [Nat.or_mod_two_eq_one] at this
        rcases this with ha | hb
        · rw [Nat.shiftLeft_mod_two_eq_one] at ha
          omega
        · omega
      · rw [h1, Nat.or_mod_two_eq_one.mpr (Or.inr h1)]
    have hsplit : (h <<< (k + 1)) ||| l
        = 2 * (((h <<< (k + 1)) ||| l) / 2) + ((h <<< (k + 1)) ||| l) % 2 := by
      omega
    have hpow : 2 ^ (k + 1) * h = 2 * (2 ^ k * h) := by
      rw [pow_succ]; ring
    rw [hsplit, hdiv, hdiv2, hmod, hpow]
    omega

/-- `(b0 << 8) | b1` is the big-endian pair value when `b1` is a byte. -/
lemma byte2_eq (b0 b1 : Nat) (hb1 : b1 < 256) :
    (b0 <<< 8) ||| b1 = 256 * b0 + b1 := by
  have := shiftLeft_lor_eq_add 8 b0 b1 (by norm_num; omega)
  norm_num at this
  omega

/-- The low byte of an assembled pair, `value & 0xFF`. -/
lemma byte2_land (b0 b1 : Nat) (hb1 : b1 < 256) :
    ((b0 <<< 8) ||| b1) &&& 0xFF = b1 := by
  rw [byte2_eq b0 b1 hb1]
  have h255 : (0xFF : Nat) = 2 ^ 8 - 1 := by norm_num
  rw [h255, Nat.and_pow_two_sub_one_eq_mod]
  omega

/-! ## Claim theorems -/

/-- **C10**: before `begin` binds the transport (the wire handle is null, as
the constructor leaves it), every bus-touching operation returns its
zero/false/none failure sentinel and opens no bus transaction (the
interaction state, including the event log, is unchanged). -/
theorem unbound_wire_all_ops_fail (bus : Bus) (t : Trackpad) (s : BusState)
    (h : t.wireBound = false) :
    isConnected bus t s = (false, s) ∧
    getProductNumber bus t s = (0, s) ∧
    wakeupDevice bus t s = (false, s) ∧
    enableManualControl bus t s = (false, s) ∧
    (∀ reg, readRegister8 bus t s reg = (0, s)) ∧
    (∀ reg, readRegister8_16bit bus t s reg = (0, s)) ∧
    (∀ reg, readRegister16 bus t s reg = (0, s)) ∧
    (∀ reg, readRegister16_16bit bus t s reg = (0, s)) ∧
    (∀ reg length, readBytes bus t s reg length = (none, s)) ∧
    (∀ reg v, writeRegister8 bus t s reg v = (false, s)) ∧
    (∀ reg v, writeRegister8_16bit bus t s reg v = (false, s)) ∧
    (∀ reg v, writeRegister16 bus t s reg v = (false, s)) ∧
    (∀ p a, (Trackpad.construct p a).wireBound = false) := by
  refine ⟨?_, ?_, ?_, ?_, ?_, ?_, ?_, ?_, ?_, ?_, ?_, ?_, ?_⟩ <;>
    intros <;>
    simp [isConnected, getProductNumber, wakeupDevice, enableManualControl,
      readRegister8, readRegister8_16bit, readRegister16,
      readRegister16_16bit, readBytes, writeRegister8, writeRegister8_16bit,
      writeRegister16, Trackpad.construct, h]

/-- Witness for C10 at a concrete unbound driver. -/
theorem unbound_wire_all_ops_fail_witness :
    isConnected busZero pad0 BusState.empty = (false, BusState.empty) :=
  (unbound_wire_all_ops_fail busZero pad0 BusState.empty rfl).1

/-- Evaluation of `wakeupDevice` on a bound transport: kick transaction,
200 microsecond delay, retry transaction; the result is the second
transaction's status, the first status is discarded. -/
lemma wakeupDevice_eval (bus : Bus) (t : Trackpad)
    (s : BusState) (h : t.wireBound = true) :
    wakeupDevice bus t s =
      (decide (bus.endStatus (s.endIdx + 1) = 0),
       { s with endIdx := s.endIdx + 2,
                log := s.log ++ [BusEvent.txn t.address [],
                                 BusEvent.delayUs 200,
                                 BusEvent.txn t.address []] }) := by
  simp only [wakeupDevice, doTxn, h]
  simp [List.append_assoc]

/-- **C7**: `wakeupDevice` issues a first zero-length transaction whose
status is ignored, delays 200 microseconds (at least the required 150), then
issues a second zero-length transaction; it succeeds iff the second
transaction reports status 0.  The returned value depends only on the status
of the second transaction. -/
theorem wakeupDevice_kick_delay_retry (bus : Bus) (t : Trackpad)
    (s : BusState) (h : t.wireBound = true) :
    wakeupDevice bus t s =
      (decide (bus.endStatus (s.endIdx + 1) = 0),
       { s with endIdx := s.endIdx + 2,
                log := s.log ++ [BusEvent.txn t.address [],
                                 BusEvent.delayUs 200,
                                 BusEvent.txn t.address []] }) ∧
    150 ≤ 200 :=
  ⟨wakeupDevice_eval bus t s h, by omega⟩

/-- Witness for C7 on the all-cooperative transport. -/
theorem wakeupDevice_kick_delay_retry_witness :
    wakeupDevice busZero padB BusState.empty =
      (true, { endIdx := 2, reqIdx := 0,
               log := [BusEvent.txn 0x74 [], BusEvent.delayUs 200,
                       BusEvent.txn 0x74 []] }) ∧
    150 ≤ 200 :=
  wakeupDevice_kick_delay_retry busZero padB BusState.empty rfl

/-- **C9**: `increaseSpeed` issues exactly two register writes — a 1-byte
write of 5 to the I2C-timeout register 0x058A (payload `05 8A 05`) and a
2-byte write of 5 to the active-report-rate register 0x057A (payload
`05 7A 00 05`), in that order.  If the first write fails no second write is
issued and the call fails; otherwise the call succeeds iff the second write
succeeds. -/
theorem increaseSpeed_two_writes (bus : Bus) (t : Trackpad) (s : BusState)
    (h : t.wireBound = true) :
    (bus.endStatus s.endIdx ≠ 0 →
      increaseSpeed bus t s =
        (false, { s with endIdx := s.endIdx + 1,
                         log := s.log ++
                           [BusEvent.txn t.address [0x05, 0x8A, 5]] })) ∧
    (bus.endStatus s.endIdx = 0 →
      increaseSpeed bus t s =
        (decide (bus.endStatus (s.endIdx + 1) = 0),
         { s with endIdx := s.endIdx + 2,
                  log := s.log ++ [BusEvent.txn t.address [0x05, 0x8A, 5],
                    BusEvent.txn t.address [0x05, 0x7A, 0, 5]] })) := by
  constructor
  · intro he
    simp [increaseSpeed, writeRegister8_16bit, writeRegister16, doTxn, h, he,
      IQS5XX_REG_I2C_TIMEOUT, IQS5XX_REG_ACTIVE_REPORT_RATE]
    decide
  · intro he
    by_cases h2 : bus.endStatus (s.endIdx + 1) = 0 <;>
      simp [increaseSpeed, writeRegister8_16bit, writeRegister16, doTxn, h,
        he, h2, IQS5XX_REG_I2C_TIMEOUT, IQS5XX_REG_ACTIVE_REPORT_RATE,
        List.append_assoc] <;>
      decide

/-- Witness for C9: on the all-cooperative transport both writes are issued
and the call succeeds. -/
theorem increaseSpeed_two_writes_witness :
    increaseSpeed busZero padB BusState.empty =
      (true, { endIdx := 2, reqIdx := 0,
               log := [BusEvent.txn 0x74 [0x05, 0x8A, 5],
                       BusEvent.txn 0x74 [0x05, 0x7A, 0, 5]] }) :=
  (increaseSpeed_two_writes busZero padB BusState.empty rfl).2 rfl

/-- **C8**: when the transport satisfies a 2-byte request with a byte count
other than 2, the multi-byte reads return the zero sentinel (`none` for
`readBytes`), constructing no value from whatever bytes did arrive. -/
theorem short_read_returns_sentinel (bus : Bus) (t : Trackpad) (s : BusState)
    (h : t.wireBound = true) (he : bus.endStatus s.endIdx = 0)
    (hc2 : bus.reqCount s.reqIdx ≠ 2) :
    (∀ reg, (readRegister16_16bit bus t s reg).1 = 0) ∧
    (getProductNumber bus t s).1 = 0 ∧
    (∀ reg, (readRegister16 bus t s reg).1 = 0) ∧
    (∀ reg length, length ≠ 0 → bus.reqCount s.reqIdx ≠ length →
      (readBytes bus t s reg length).1 = none) := by
  refine ⟨?_, ?_, ?_, ?_⟩
  · intro reg
    simp [readRegister16_16bit, doTxn, doReq, h, he, hc2]
  · simp [getProductNumber, doTxn, doReq, h, he, hc2]
  · intro reg
    simp [readRegister16, readBytes, doTxn, doReq, h, he, hc2]
  · intro reg length hlen hcl
    simp [readBytes, doTxn, doReq, h, he, hlen, hcl]

/-- Witness for C8 at the concrete short-read transport. -/
theorem short_read_returns_sentinel_witness :
    (readRegister16_16bit busShort padB BusState.empty
      IQS5XX_REG_TOUCH_X).1 = 0 :=
  (short_read_returns_sentinel busShort padB BusState.empty rfl rfl
    (by decide)).1 IQS5XX_REG_TOUCH_X

/-- **C2**: from the same raw byte pair `[b0, b1]`, the 16-bit-addressed
2-byte read assembles big-endian (first byte is the high byte) while the
legacy 8-bit-addressed path assembles little-endian (first byte is the low
byte), so the two paths yield byte-swapped results. -/
theorem dual_path_byte_order (bus : Bus) (t : Trackpad) (s : BusState)
    (reg reg8 b0 b1 : Nat) (h : t.wireBound = true)
    (he : bus.endStatus s.endIdx = 0)
    (hc : bus.reqCount s.reqIdx = 2)
    (hb : bus.reqBytes s.reqIdx = [b0, b1])
    (hb0 : b0 < 256) (hb1 : b1 < 256) :
    (readRegister16_16bit bus t s reg).1 = 256 * b0 + b1 ∧
    (readRegister16 bus t s reg8).1 = 256 * b1 + b0 := by
  constructor
  · simp [readRegister16_16bit, doTxn, doReq, h, he, hc, hb,
      Nat.mod_eq_of_lt hb0, Nat.mod_eq_of_lt hb1]
    exact byte2_eq b0 b1 hb1
  · simp [readRegister16, readBytes, doTxn, doReq, h, he, hc, hb,
      Nat.mod_eq_of_lt hb0, Nat.mod_eq_of_lt hb1, List.range_succ]
    exact byte2_eq b1 b0 hb0

/-- Witness for C2 at the concrete byte pair 0xAB, 0xCD: 0xABCD on the
16-bit-addressed path, 0xCDAB on the legacy path. -/
theorem dual_path_byte_order_witness :
    (readRegister16_16bit busPair padB BusState.empty
      IQS5XX_REG_TOUCH_X).1 = 0xABCD ∧
    (readRegister16 busPair padB BusState.empty
      IQS5XX_REG_VERSION_INFO).1 = 0xCDAB :=
  dual_path_byte_order busPair padB BusState.empty IQS5XX_REG_TOUCH_X
    IQS5XX_REG_VERSION_INFO 0xAB 0xCD rfl rfl rfl rfl (by decide) (by decide)

/-- **C1**: a decoded frame's `state` is never `MULTI_TOUCH`, and on every
successful decode it is `NO_TOUCH` exactly when `touchStrength = 0` or
`x = y = 0`, and `SINGLE_TOUCH` otherwise. -/
theorem readTouchData_state_invariant (bus : Bus) (readyAfter : Nat)
    (t : Trackpad) (s : BusState) (td0 : TouchData) :
    (readTouchData bus readyAfter t s td0).2.1.state ≠
      TouchState.MULTI_TOUCH ∧
    ((readTouchData bus readyAfter t s td0).1 = true →
      ((readTouchData bus readyAfter t s td0).2.1.state =
          TouchState.NO_TOUCH ↔
        ((readTouchData bus readyAfter t s td0).2.1.touchStrength = 0 ∨
         ((readTouchData bus readyAfter t s td0).2.1.x = 0 ∧
          (readTouchData bus readyAfter t s td0).2.1.y = 0))) ∧
      ((readTouchData bus readyAfter t s td0).2.1.state ≠
          TouchState.NO_TOUCH →
        (readTouchData bus readyAfter t s td0).2.1.state =
          TouchState.SINGLE_TOUCH)) := by
  simp only [readTouchData]
  split
  · simp
  · split
    · simp
    · rename_i hx hy
      refine ⟨?_, fun _ => ⟨?_, ?_⟩⟩
      · split
        · simp
        · split <;> simp
      · split
        · simp_all
        · split <;> simp_all
      · split
        · simp_all
        · split <;> simp_all

/-- Witness for C1 on a concrete successful acquisition. -/
theorem readTouchData_state_invariant_witness :
    ((readTouchData busTouch 0 padB BusState.empty tdZero).2.1.state =
        TouchState.NO_TOUCH ↔
      ((readTouchData busTouch 0 padB BusState.empty
          tdZero).2.1.touchStrength = 0 ∨
       ((readTouchData busTouch 0 padB BusState.empty tdZero).2.1.x = 0 ∧
        (readTouchData busTouch 0 padB BusState.empty tdZero).2.1.y = 0))) :=
  ((readTouchData_state_invariant busTouch 0 padB BusState.empty tdZero).2
    (by decide)).1

/-- **C4**: the cached last frame is all-zero/`NO_TOUCH` at construction, is
overwritten with the decoded frame (and nothing else changes) at the end of
every successful `readTouchData`, and is left untouched whenever
`readTouchData` returns failure. -/
theorem lastTouchData_cache_lifecycle (p a : Nat) (bus : Bus)
    (readyAfter : Nat) (t : Trackpad) (s : BusState) (td0 : TouchData) :
    (Trackpad.construct p a).lastTouchData = tdZero ∧
    ((readTouchData bus readyAfter t s td0).1 = true →
      (readTouchData bus readyAfter t s td0).2.2.1 =
        { t with lastTouchData :=
            (readTouchData bus readyAfter t s td0).2.1 }) ∧
    ((readTouchData bus readyAfter t s td0).1 = false →
      (readTouchData bus readyAfter t s td0).2.2.1 = t) := by
  refine ⟨rfl, ?_, ?_⟩ <;>
  · simp only [readTouchData]
    split
    · simp
    · split <;> simp

/-- Witness for C4: a successful acquisition rewrites the cache, a failed
one leaves the driver state unchanged. -/
theorem lastTouchData_cache_lifecycle_witness :
    (readTouchData busTouch 0 padB BusState.empty tdZero).2.2.1 =
      { padB with lastTouchData :=
          (readTouchData busTouch 0 padB BusState.empty tdZero).2.1 } ∧
    (readTouchData busZero 0 padB BusState.empty tdZero).2.2.1 = padB :=
  ⟨(lastTouchData_cache_lifecycle 1 0x74 busTouch 0 padB BusState.empty
      tdZero).2.1 (by decide),
   (lastTouchData_cache_lifecycle 1 0x74 busZero 0 padB BusState.empty
      tdZero).2.2 (by decide)⟩

/-! ## Evaluation and log-monotonicity lemmas for the `begin` sequence -/

/-- `readRegister8_16bit` only appends to the event log. -/
lemma readRegister8_16bit_log_mono (bus : Bus) (t : Trackpad) (s : BusState)
    (reg : Nat) :
    ∃ r, (readRegister8_16bit bus t s reg).2.log = s.log ++ r := by
  simp only [readRegister8_16bit, doTxn, doReq]
  split
  · exact ⟨[], by simp⟩
  · split
    · exact ⟨_, rfl⟩
    · split
      · exact ⟨[BusEvent.txn t.address [(reg >>> 8) &&& 0xFF, reg &&& 0xFF],
                BusEvent.req t.address 1], by simp⟩
      · exact ⟨[BusEvent.txn t.address [(reg >>> 8) &&& 0xFF, reg &&& 0xFF],
                BusEvent.req t.address 1], by simp⟩

/-- `readRegister8_16bit` performs exactly one write transaction (the
address phase), whatever the outcome. -/
lemma readRegister8_16bit_endIdx (bus : Bus) (t : Trackpad) (s : BusState)
    (reg : Nat) (h : t.wireBound = true) :
    (readRegister8_16bit bus t s reg).2.endIdx = s.endIdx + 1 := by
  simp only [readRegister8_16bit, doTxn, doReq]
  split
  · rename_i hf
    simp [h] at hf
  · split
    · rfl
    · split <;> rfl

/-- `enableManualControl` succeeds iff its write-back transaction (the
second transaction it opens) succeeds; the read's outcome is not
consulted. -/
lemma enableManualControl_result (bus : Bus) (t : Trackpad) (s : BusState)
    (h : t.wireBound = true) :
    (enableManualControl bus t s).1 =
      decide (bus.endStatus (s.endIdx + 1) = 0) := by
  have h1 := readRegister8_16bit_endIdx bus t s IQS5XX_REG_SYS_CFG0 h
  rcases hR : readRegister8_16bit bus t s IQS5XX_REG_SYS_CFG0 with ⟨v, s1⟩
  rw [hR] at h1
  simp only at h1
  simp only [enableManualControl, writeRegister8_16bit, doTxn, h, hR]
  simp [h1]

/-- `enableManualControl` only appends to the event log. -/
lemma enableManualControl_log_mono (bus : Bus) (t : Trackpad)
    (s : BusState) :
    ∃ r, (enableManualControl bus t s).2.log = s.log ++ r := by
  cases h : t.wireBound with
  | false => exact ⟨[], by simp [enableManualControl, h]⟩
  | true =>
    obtain ⟨r1, hr1⟩ :=
      readRegister8_16bit_log_mono bus t s IQS5XX_REG_SYS_CFG0
    rcases hR : readRegister8_16bit bus t s IQS5XX_REG_SYS_CFG0 with ⟨v, s1⟩
    rw [hR] at hr1
    simp only at hr1
    simp only [enableManualControl, writeRegister8_16bit, doTxn, h, hR]
    refine ⟨r1 ++ [BusEvent.txn t.address
      [(IQS5XX_REG_SYS_CFG0 >>> 8) &&& 0xFF, IQS5XX_REG_SYS_CFG0 &&& 0xFF,
       (v ||| 0b10000000) % 256]], ?_⟩
    simp [hr1]

/-- Exact evaluation of `getProductNumber` on a cooperative transport
delivering the byte pair `[b0, b1]`. -/
lemma getProductNumber_eval (bus : Bus) (t : Trackpad) (s : BusState)
    (b0 b1 : Nat) (h : t.wireBound = true)
    (he : bus.endStatus s.endIdx = 0)
    (hc : bus.reqCount s.reqIdx = 2)
    (hb : bus.reqBytes s.reqIdx = [b0, b1])
    (hb0 : b0 < 256) (hb1 : b1 < 256) :
    getProductNumber bus t s = (256 * b0 + b1,
      { s with endIdx := s.endIdx + 1, reqIdx := s.reqIdx + 1,
               log := s.log ++ [BusEvent.txn t.address [0, 0],
                                BusEvent.req t.address 2] }) := by
  have hv : (((b0 % 256) <<< 8) ||| (b1 % 256) : Nat) = 256 * b0 + b1 := by
    rw [Nat.mod_eq_of_lt hb0, Nat.mod_eq_of_lt hb1]
    exact byte2_eq b0 b1 hb1
  have hbyteHi : ((IQS5XX_REG_PRODUCT_NUMBER >>> 8) &&& 0xFF : Nat) = 0 := by
    decide
  have hbyteLo : (IQS5XX_REG_PRODUCT_NUMBER &&& 0xFF : Nat) = 0 := by decide
  simp [getProductNumber, doTxn, doReq, h, he, hc, hb, hbyteHi, hbyteLo, hv]

/-- `getProductNumber` on a bound transport first opens the address-phase
write transaction `[0, 0]`, then only appends further events. -/
lemma getProductNumber_log_head (bus : Bus) (t : Trackpad) (s : BusState)
    (h : t.wireBound = true) :
    ∃ r, (getProductNumber bus t s).2.log =
      s.log ++ BusEvent.txn t.address [0, 0] :: r := by
  have hbyteHi : ((IQS5XX_REG_PRODUCT_NUMBER >>> 8) &&& 0xFF : Nat) = 0 := by
    decide
  have hbyteLo : (IQS5XX_REG_PRODUCT_NUMBER &&& 0xFF : Nat) = 0 := by decide
  simp only [getProductNumber, doTxn, doReq, h, hbyteHi, hbyteLo]
  split
  · rename_i hf
    simp at hf
  · split
    · exact ⟨[], by simp⟩
    · split
      · exact ⟨[BusEvent.req t.address 2], by simp⟩
      · exact ⟨[BusEvent.req t.address 2], by simp⟩

/-- The post-probe tail of `begin` first opens the product-number address
transaction, then only appends further events. -/
lemma beginTail_log_head (bus : Bus) (t : Trackpad) (s : BusState)
    (h : t.wireBound = true) :
    ∃ r, (beginTail bus t s).2.2.log =
      s.log ++ BusEvent.txn t.address [0, 0] :: r := by
  obtain ⟨r0, hr0⟩ := getProductNumber_log_head bus t s h
  rcases hgp : getProductNumber bus t s with ⟨pn, s4⟩
  rw [hgp] at hr0
  simp only at hr0
  obtain ⟨r1, hr1⟩ := enableManualControl_log_mono bus t s4
  rcases hmc : enableManualControl bus t s4 with ⟨ok, s5⟩
  rw [hmc] at hr1
  simp only at hr1
  simp only [beginTail, hgp, hmc]
  split
  · exact ⟨r0, by simpa using hr0⟩
  · split
    · exact ⟨r0, by simpa using hr0⟩
    · split
      · exact ⟨r0 ++ r1, by simp [hr1, hr0]⟩
      · exact ⟨r0 ++ r1 ++ [BusEvent.delayMs 1], by simp [hr1, hr0]⟩

/-- When the presence probe succeeds, `begin` proceeds directly to the
identity-verification tail. -/
lemma begin_probe_ok (bus : Bus) (t : Trackpad)
    (he0 : bus.endStatus 0 = 0) :
    begin bus t BusState.empty =
      beginTail bus { t with wireBound := true }
        { endIdx := 1, reqIdx := 0,
          log := [BusEvent.delayMs 1, BusEvent.txn t.address []] } := by
  simp [begin, doTxn, BusState.empty, he0]

/-- Outcome of the identity-verification tail as a function of the product
bytes and the write-back status. -/
lemma beginTail_eval (bus : Bus) (t : Trackpad) (s : BusState) (b0 b1 : Nat)
    (h : t.wireBound = true)
    (he : bus.endStatus s.endIdx = 0)
    (hc : bus.reqCount s.reqIdx = 2)
    (hb : bus.reqBytes s.reqIdx = [b0, b1])
    (hb0 : b0 < 256) (hb1 : b1 < 256) :
    (256 * b0 + b1 = 0 → (beginTail bus t s).1 = false) ∧
    (b1 ≠ 40 → b1 ≠ 58 → b1 ≠ 52 → (beginTail bus t s).1 = false) ∧
    (256 * b0 + b1 ≠ 0 → (b1 = 40 ∨ b1 = 58 ∨ b1 = 52) →
      (beginTail bus t s).1 =
        decide (bus.endStatus (s.endIdx + 1 + 1) = 0)) := by
  have hgp := getProductNumber_eval bus t s b0 b1 h he hc hb hb0 hb1
  have hpid : ((256 * b0 + b1) &&& 0xFF : Nat) = b1 := by
    rw [← byte2_eq b0 b1 hb1]
    exact byte2_land b0 b1 hb1
  refine ⟨?_, ?_, ?_⟩
  · intro hz
    simp [beginTail, hgp, hz]
  · intro h40 h58 h52
    simp only [beginTail, hgp]
    split
    · rfl
    · simp [hpid, h40, h58, h52]
  · intro hnz hset
    have hres := enableManualControl_result bus t
      { s with endIdx := s.endIdx + 1, reqIdx := s.reqIdx + 1,
               log := s.log ++ [BusEvent.txn t.address [0, 0],
                                BusEvent.req t.address 2] } h
    rcases hmc : enableManualControl bus t
      { s with endIdx := s.endIdx + 1, reqIdx := s.reqIdx + 1,
               log := s.log ++ [BusEvent.txn t.address [0, 0],
                                BusEvent.req t.address 2] } with ⟨ok, s5⟩
    rw [hmc] at hres
    simp only [beginTail, hgp, hmc]
    rcases hset with rfl | rfl | rfl <;>
      by_cases hw : bus.endStatus (s.endIdx + 1 + 1) = 0 <;>
      simp_all [hpid, hnz]

/-- **C5**: with the presence probe succeeding and the product-number read
delivering bytes `[b0, b1]`, `begin` fails when the assembled product number
is zero, fails when its low byte `b1` is none of 40, 58, 52, and when `b1`
is one of them the identity check passes and `begin` proceeds — its result
is then decided by the remaining manual-control write transaction. -/
theorem begin_product_identity (bus : Bus) (t : Trackpad) (b0 b1 : Nat)
    (he0 : bus.endStatus 0 = 0) (he1 : bus.endStatus 1 = 0)
    (hc : bus.reqCount 0 = 2) (hb : bus.reqBytes 0 = [b0, b1])
    (hb0 : b0 < 256) (hb1 : b1 < 256) :
    (256 * b0 + b1 = 0 → (begin bus t BusState.empty).1 = false) ∧
    (b1 ≠ 40 → b1 ≠ 58 → b1 ≠ 52 →
      (begin bus t BusState.empty).1 = false) ∧
    ((b1 = 40 ∨ b1 = 58 ∨ b1 = 52) →
      ((begin bus t BusState.empty).1 = true ↔ bus.endStatus 3 = 0)) := by
  have htail := beginTail_eval bus { t with wireBound := true }
    { endIdx := 1, reqIdx := 0,
      log := [BusEvent.delayMs 1, BusEvent.txn t.address []] } b0 b1 rfl he1
    hc hb hb0 hb1
  rw [begin_probe_ok bus t he0]
  refine ⟨htail.1, htail.2.1, ?_⟩
  intro hset
  have hnz : 256 * b0 + b1 ≠ 0 := by
    rcases hset with rfl | rfl | rfl <;> omega
  rw [htail.2.2 hnz hset]
  simp

/-- Witness for C5: product number 58 accepted, `begin` succeeds on the
all-cooperative transport. -/
theorem begin_product_identity_witness :
    (begin busBeginOk pad0 BusState.empty).1 = true ↔
      busBeginOk.endStatus 3 = 0 :=
  (begin_product_identity busBeginOk pad0 0 58 rfl rfl rfl rfl (by decide)
    (by decide)).2.2 (Or.inr (Or.inl rfl))

/-- **C3** fails on the code: in this run every transaction succeeds except
the manual-control *read* (the third transaction, status 1), so the read
step of step 5 fails and returns its zero sentinel — yet `begin` returns
success, because `enableManualControl` never inspects the read's result and
only the write-back's status is checked. -/
theorem begin_read_failure_still_succeeds :
    busReadFail.endStatus 2 = 1 ∧
    (readRegister8_16bit busReadFail padB
      { endIdx := 2, reqIdx := 1, log := [] } IQS5XX_REG_SYS_CFG0).1 = 0 ∧
    (begin busReadFail pad0 BusState.empty).1 = true :=
  ⟨rfl, by decide, by decide⟩

/-- **C3** amended: during initialization step 5 only the *write-back*
transaction gates the result — if it fails, `begin` fails; if it succeeds,
`begin` succeeds even if the preceding read step failed (the read's zero
sentinel is indistinguishable from a legitimate zero and is not checked). -/
theorem begin_manual_control_write_gates (bus : Bus) (t : Trackpad)
    (b0 b1 : Nat)
    (he0 : bus.endStatus 0 = 0) (he1 : bus.endStatus 1 = 0)
    (hc : bus.reqCount 0 = 2) (hb : bus.reqBytes 0 = [b0, b1])
    (hb0 : b0 < 256)
    (hset : b1 = 40 ∨ b1 = 58 ∨ b1 = 52) :
    (bus.endStatus 3 ≠ 0 → (begin bus t BusState.empty).1 = false) ∧
    (bus.endStatus 3 = 0 → (begin bus t BusState.empty).1 = true) := by
  have hb1 : b1 < 256 := by rcases hset with rfl | rfl | rfl <;> omega
  have hnz : 256 * b0 + b1 ≠ 0 := by
    rcases hset with rfl | rfl | rfl <;> omega
  have htail := (beginTail_eval bus { t with wireBound := true }
    { endIdx := 1, reqIdx := 0,
      log := [BusEvent.delayMs 1, BusEvent.txn t.address []] } b0 b1 rfl he1
    hc hb hb0 hb1).2.2 hnz hset
  rw [begin_probe_ok bus t he0, htail]
  constructor
  · intro hw
    simp [hw]
  · intro hw
    simp [hw]

/-- Witness for the amended C3 on the all-cooperative transport. -/
theorem begin_manual_control_write_gates_witness :
    (begin busBeginOk pad0 BusState.empty).1 = true :=
  (begin_manual_control_write_gates busBeginOk pad0 0 58 rfl rfl rfl rfl
    (by decide) (Or.inr (Or.inl rfl))).2 rfl

/-- **C6**: a presence-probe status other than 0 or 2 makes `begin` return
failure immediately with no further bus activity (the log ends at the
probe); status 2 routes into the wake sequence (kick, 200 microsecond
delay, retry, directly after the probe); status 0 skips the wake sequence —
the transaction following the probe is already the product-number address
write. -/
theorem begin_probe_routing (bus : Bus) (t : Trackpad) :
    (bus.endStatus 0 ≠ 0 → bus.endStatus 0 ≠ 2 →
      begin bus t BusState.empty =
        (false, { t with wireBound := true },
         { endIdx := 1, reqIdx := 0,
           log := [BusEvent.delayMs 1, BusEvent.txn t.address []] })) ∧
    (bus.endStatus 0 = 2 →
      ∃ r, (begin bus t BusState.empty).2.2.log =
        [BusEvent.delayMs 1, BusEvent.txn t.address [],
         BusEvent.txn t.address [], BusEvent.delayUs 200,
         BusEvent.txn t.address []] ++ r) ∧
    (bus.endStatus 0 = 0 →
      ∃ r, (begin bus t BusState.empty).2.2.log =
        [BusEvent.delayMs 1, BusEvent.txn t.address [],
         BusEvent.txn t.address [0, 0]] ++ r) := by
  refine ⟨?_, ?_, ?_⟩
  · intro h0 h2
    simp [begin, doTxn, BusState.empty, h0, h2]
  · intro h2
    have hw := wakeupDevice_eval bus { t with wireBound := true }
      { endIdx := 1, reqIdx := 0,
        log := [BusEvent.delayMs 1, BusEvent.txn t.address []] } rfl
    by_cases hs : bus.endStatus 2 = 0
    · obtain ⟨r, hr⟩ := beginTail_log_head bus { t with wireBound := true }
        { endIdx := 3, reqIdx := 0,
          log := [BusEvent.delayMs 1, BusEvent.txn t.address [],
                  BusEvent.txn t.address [], BusEvent.delayUs 200,
                  BusEvent.txn t.address []] } rfl
      refine ⟨BusEvent.txn t.address [0, 0] :: r, ?_⟩
      simp [begin, doTxn, BusState.empty, h2, hw, hs]
      simpa using hr
    · refine ⟨[], ?_⟩
      simp [begin, doTxn, BusState.empty, h2, hw, hs]
  · intro h0
    obtain ⟨r, hr⟩ := beginTail_log_head bus { t with wireBound := true }
      { endIdx := 1, reqIdx := 0,
        log := [BusEvent.delayMs 1, BusEvent.txn t.address []] } rfl
    refine ⟨r, ?_⟩
    rw [begin_probe_ok bus t h0]
    simpa using hr

/-- Witness for C6: with a succeeding probe the wake sequence is skipped and
the product-number address write follows the probe directly. -/
theorem begin_probe_routing_witness :
    ∃ r, (begin busZero pad0 BusState.empty).2.2.log =
      [BusEvent.delayMs 1, BusEvent.txn pad0.address [],
       BusEvent.txn pad0.address [0, 0]] ++ r :=
  (begin_probe_routing busZero pad0).2.2 rfl
end IQS5XX
